import Mathlib

/-!
# Verification of the nlw-journey trip-planning backend

A shallow embedding of the HTTP handler layer (`internal/api`, the `API`
methods in the Go source) over an explicit persistent-store state.  Machine
timestamps (`time.Time` compared via `Before`/`After`, always on absolute
instants, so the `.UTC()` conversions are comparison-neutral) are modelled
as integers; UUIDs as naturals; the JSON bodies as structures that hold the
already-decoded, validator-accepted fields.  The pgstore layer is generated
SQL code that is not part of the handler sources; its operations are
modelled from the specification of the store collaborator ("persistence of
Trip, Participant, Activity, Link entities; CRUD-style operations keyed by
identifier; no business rules"), with an explicit fault switch per
operation so that dependency failures of the store can be studied.
-/

/-- Timestamps are UTC instants modelled as integers.  Go's
`a.Before(b)` is `a < b` and `a.After(b)` is `a > b`. -/
abbrev Timestamp := Int

/-- A row of the `trips` table (pgstore.Trip). -/
structure Trip where
  id : Nat
  destination : String
  startsAt : Timestamp
  endsAt : Timestamp
  isConfirmed : Bool
  ownerEmail : String
deriving Repr, DecidableEq

/-- A row of the `participants` table (pgstore.Participant). -/
structure Participant where
  id : Nat
  tripId : Nat
  email : String
  isConfirmed : Bool
deriving Repr, DecidableEq

/-- A row of the `activities` table (pgstore.Activity). -/
structure Activity where
  id : Nat
  tripId : Nat
  title : String
  occursAt : Timestamp
deriving Repr, DecidableEq

/-- A row of the `links` table (pgstore.Link). -/
structure Link where
  id : Nat
  tripId : Nat
  title : String
  url : String
deriving Repr, DecidableEq

/-- The persistent store state: the tables of the relational database,
plus a counter supplying fresh identifiers (modelling UUID generation). -/
structure DB where
  trips : List Trip
  participants : List Participant
  activities : List Activity
  links : List Link
  nextId : Nat
deriving Repr, DecidableEq

/-- Store-layer errors, as the handlers distinguish them: `pgx.ErrNoRows`
(the looked-up row is absent) versus any other persistence/transport
failure. -/
inductive DbError where
  | noRows
  | other
deriving Repr, DecidableEq

/-- Fault-injection switches, one per store operation the handlers call:
a set switch makes that operation fail with a non-`noRows` error, modelling
a dependency failure of the external store collaborator. -/
structure Faults where
  getTrip : Bool
  getParticipant : Bool
  getParticipants : Bool
  getTripActivities : Bool
  updateTrip : Bool
  updateTripConfirm : Bool
  confirmParticipant : Bool
  createTrip : Bool
  createActivity : Bool
  inviteParticipantsToTrip : Bool
deriving Repr, DecidableEq

/-- The fault-free store: every operation behaves per its contract. -/
def Faults.noFaults : Faults :=
  ⟨false, false, false, false, false, false, false, false, false, false⟩

/-- Modelled from the spec: the store's `GetTrip` (pgstore generated code,
not among the handler sources) — lookup of a trip by identifier, `noRows`
exactly when absent. -/
def DB.getTrip (db : DB) (f : Faults) (tripId : Nat) : Except DbError Trip :=
  if f.getTrip then .error .other
  else
    match db.trips.find? (fun t => t.id == tripId) with
    | some t => .ok t
    | none => .error .noRows

/-- Modelled from the spec: the store's `GetParticipant` — lookup of a
participant by identifier, `noRows` exactly when absent. -/
def DB.getParticipant (db : DB) (f : Faults) (participantId : Nat) :
    Except DbError Participant :=
  if f.getParticipant then .error .other
  else
    match db.participants.find? (fun p => p.id == participantId) with
    | some p => .ok p
    | none => .error .noRows

/-- Modelled from the spec: the store's `GetParticipants` — the roster of
a trip, every participant row owned by the trip, in insertion order. -/
def DB.getParticipants (db : DB) (f : Faults) (tripId : Nat) :
    Except DbError (List Participant) :=
  if f.getParticipants then .error .other
  else .ok (db.participants.filter (fun p => p.tripId == tripId))

/-- Modelled from the spec: the store's `GetTripActivities` — every
activity row owned by the trip, in insertion order. -/
def DB.getTripActivities (db : DB) (f : Faults) (tripId : Nat) :
    Except DbError (List Activity) :=
  if f.getTripActivities then .error .other
  else .ok (db.activities.filter (fun a => a.tripId == tripId))

/-- pgstore.UpdateTripParams: the write payload `PutTripsTripID` builds. -/
structure UpdateTripParams where
  destination : String
  endsAt : Timestamp
  startsAt : Timestamp
  isConfirmed : Bool
  id : Nat
deriving Repr, DecidableEq

/-- Modelled from the spec: the store's `UpdateTrip` — overwrite the
destination, dates and confirmed flag of the trip row keyed by `p.id`. -/
def DB.updateTrip (db : DB) (f : Faults) (p : UpdateTripParams) :
    Except DbError DB :=
  if f.updateTrip then .error .other
  else .ok { db with
    trips := db.trips.map (fun t =>
      if t.id == p.id then
        { t with destination := p.destination, startsAt := p.startsAt,
                 endsAt := p.endsAt, isConfirmed := p.isConfirmed }
      else t) }

/-- pgstore.UpdateTripConfirmParams. -/
structure UpdateTripConfirmParams where
  isConfirmed : Bool
  id : Nat
deriving Repr, DecidableEq

/-- Modelled from the spec: the store's `UpdateTripConfirm` — overwrite
the confirmed flag of the trip row keyed by `p.id`. -/
def DB.updateTripConfirm (db : DB) (f : Faults) (p : UpdateTripConfirmParams) :
    Except DbError DB :=
  if f.updateTripConfirm then .error .other
  else .ok { db with
    trips := db.trips.map (fun t =>
      if t.id == p.id then { t with isConfirmed := p.isConfirmed } else t) }

/-- pgstore.ConfirmParticipantParams. -/
structure ConfirmParticipantParams where
  isConfirmed : Bool
  id : Nat
deriving Repr, DecidableEq

/-- Modelled from the spec: the store's `ConfirmParticipant` — overwrite
the confirmed flag of the participant row keyed by `p.id`. -/
def DB.confirmParticipant (db : DB) (f : Faults) (p : ConfirmParticipantParams) :
    Except DbError DB :=
  if f.confirmParticipant then .error .other
  else .ok { db with
    participants := db.participants.map (fun q =>
      if q.id == p.id then { q with isConfirmed := p.isConfirmed } else q) }

/-- spec.CreateTripRequest: the decoded, validator-accepted body of
`POST /trips`. -/
structure CreateTripRequest where
  destination : String
  ownerEmail : String
  startsAt : Timestamp
  endsAt : Timestamp
deriving Repr, DecidableEq

/-- Modelled from the spec: the store's `CreateTrip` — "persist the trip
unconfirmed"; inserts one trip row with a fresh identifier and returns it. -/
def DB.createTrip (db : DB) (f : Faults) (body : CreateTripRequest) :
    Except DbError (Nat × DB) :=
  if f.createTrip then .error .other
  else .ok (db.nextId,
    { db with
      trips := db.trips ++
        [{ id := db.nextId
           destination := body.destination
           startsAt := body.startsAt
           endsAt := body.endsAt
           isConfirmed := false
           ownerEmail := body.ownerEmail }],
      nextId := db.nextId + 1 })

/-- pgstore.CreateActivityParams. -/
structure CreateActivityParams where
  tripId : Nat
  title : String
  occursAt : Timestamp
deriving Repr, DecidableEq

/-- Modelled from the spec: the store's `CreateActivity` — inserts one
activity row with a fresh identifier and returns it. -/
def DB.createActivity (db : DB) (f : Faults) (p : CreateActivityParams) :
    Except DbError (Nat × DB) :=
  if f.createActivity then .error .other
  else .ok (db.nextId,
    { db with
      activities := db.activities ++
        [{ id := db.nextId
           tripId := p.tripId
           title := p.title
           occursAt := p.occursAt }],
      nextId := db.nextId + 1 })

/-- pgstore.InviteParticipantsToTripParams. -/
structure InviteParticipantsToTripParams where
  tripId : Nat
  email : String
deriving Repr, DecidableEq

/-- Modelled from the spec: the store's `InviteParticipantsToTrip` —
inserts one unconfirmed participant row per request entry, fresh
identifiers, returning the number of rows inserted. -/
def DB.inviteParticipantsToTrip (db : DB) (f : Faults)
    (ps : List InviteParticipantsToTripParams) : Except DbError (Nat × DB) :=
  if f.inviteParticipantsToTrip then .error .other
  else
    match ps with
    | [] => .ok (0, db)
    | p :: rest =>
      match DB.inviteParticipantsToTrip
          { db with
            participants := db.participants ++
              [{ id := db.nextId
                 tripId := p.tripId
                 email := p.email
                 isConfirmed := false }],
            nextId := db.nextId + 1 } f rest with
      | .error e => .error e
      | .ok (n, db') => .ok (n + 1, db')

/-- An HTTP response as the handlers build them: the status code together
with the JSON payload that matters to the claims (`message` for the error
classes, the fresh identifier for the 201 creations). -/
inductive Response where
  | ok200
  | created201 (id : Nat)
  | noContent204
  | badRequest400 (message : String)
  | notFound404 (message : String)
  | serverError500 (message : String)
deriving Repr, DecidableEq

namespace Mailpit

/-- mailpit.Participant: addressee of a participant-confirmation email. -/
structure Participant where
  email : String
  participantId : Nat
deriving Repr, DecidableEq

/-- mailpit.InviteParticipantsToTrip: one invite in a notification
fan-out; the confirmation link sent is built from `participant.participantId`
(`/participants/{id}/confirm`), so carrying the identifier carries the
individual link. -/
structure InviteParticipantsToTrip where
  tripID : Nat
  participant : Mailpit.Participant
deriving Repr, DecidableEq

/-- mailpit.SendInviteToParticipants. -/
structure SendInviteToParticipants where
  trip : Trip
  invites : List Mailpit.InviteParticipantsToTrip
deriving Repr, DecidableEq

end Mailpit

/-- A notification task handed to the detached (`go func`) mailer call. -/
inductive Notification where
  | confirmTripToOwner (tripId : Nat)
  | confirmTripToParticipants (data : Mailpit.SendInviteToParticipants)
deriving Repr, DecidableEq

/-- What one handler invocation yields: the HTTP response, the store
state after the invocation, and the notification tasks it spawned
asynchronously (in spawn order). -/
structure HandlerResult where
  response : Response
  db : DB
  notifs : List Notification
deriving Repr, DecidableEq

/-- strings.TrimSpace: drop leading and trailing whitespace characters
from a string (Go standard library, embedded structurally so that it
evaluates). -/
def trimSpace (s : String) : String :=
  ⟨((s.data.dropWhile Char.isWhitespace).reverse.dropWhile
      Char.isWhitespace).reverse⟩

/-- api.filterActivities: predicate filtering over an activity slice,
preserving order. -/
def filterActivities (activities : List Activity) (f : Activity → Bool) :
    List Activity :=
  activities.filter f

/-- api.filterParticipants: predicate filtering over a participant slice,
preserving order. -/
def filterParticipants (participants : List Participant)
    (f : Participant → Bool) : List Participant :=
  participants.filter f

/-- spec.PutTripsTripIDJSONRequestBody: the decoded, validator-accepted
body of `PUT /trips/{tripId}`. -/
structure PutTripsTripIDRequestBody where
  destination : String
  startsAt : Timestamp
  endsAt : Timestamp
deriving Repr, DecidableEq

namespace API

/-- `POST /trips` (api.PostTrips): after decode and struct validation
(modelled as a given, well-formed `body`), reject a start date before
`now` or an end date before the start date; otherwise persist via
`CreateTrip` and spawn the owner-confirmation email. -/
def PostTrips (db : DB) (f : Faults) (now : Timestamp)
    (body : CreateTripRequest) : HandlerResult :=
  if body.startsAt < now then
    { response := .badRequest400 "the travel period is invalid, it is not possible to change the start date to before today/now"
      db := db, notifs := [] }
  else if body.endsAt < body.startsAt then
    { response := .badRequest400 "the travel period is invalid, end date must be equal to or greater than the start date"
      db := db, notifs := [] }
  else
    match db.createTrip f body with
    | .error _ =>
      { response := .serverError500 "unable to create trip, contact adm"
        db := db, notifs := [] }
    | .ok (tripID, db') =>
      { response := .created201 tripID
        db := db'
        notifs := [.confirmTripToOwner tripID] }

/-- `PUT /trips/{tripId}` (api.PutTripsTripID): 404 on any trip-lookup
error; 400 if the activities fetch fails; re-validate the date rules of
creation; compute the activities out of the proposed window (strictly
before the new start or strictly after the new end) and reject, naming
them all, if any exist; otherwise write destination and dates from the
body with `IsConfirmed` and `ID` copied from the stored trip. -/
def PutTripsTripID (db : DB) (f : Faults) (now : Timestamp) (tripID : Nat)
    (body : PutTripsTripIDRequestBody) : HandlerResult :=
  match db.getTrip f tripID with
  | .error _ =>
    { response := .notFound404 "trip not found", db := db, notifs := [] }
  | .ok tripActual =>
    match db.getTripActivities f tripID with
    | .error _ =>
      { response := .badRequest400 "unable to apply consistence, before update, "
        db := db, notifs := [] }
    | .ok activitiesFromActualTrip =>
      if body.startsAt < now then
        { response := .badRequest400 "the travel period is invalid, it is not possible to change the start date to before today/now"
          db := db, notifs := [] }
      else if body.endsAt < body.startsAt then
        { response := .badRequest400 "the travel period is invalid, end date must be equal to or greater than the start date"
          db := db, notifs := [] }
      else
        let activitiesOutFromChangesInTrip :=
          filterActivities activitiesFromActualTrip (fun activity =>
            body.startsAt > activity.occursAt || body.endsAt < activity.occursAt)
        if activitiesOutFromChangesInTrip.length > 0 then
          let activitiesId :=
            activitiesOutFromChangesInTrip.map (fun a => toString a.id)
          { response := .badRequest400
              ("changes invalid. There are activities occuring out of range the new period's trip. Activities out of range: "
                ++ String.intercalate ", " activitiesId)
            db := db, notifs := [] }
        else
          let trip : UpdateTripParams :=
            { destination := body.destination
              endsAt := body.endsAt
              startsAt := body.startsAt
              isConfirmed := tripActual.isConfirmed
              id := tripActual.id }
          match db.updateTrip f trip with
          | .error _ =>
            { response := .serverError500 "unable to update trip"
              db := db, notifs := [] }
          | .ok db' =>
            { response := .noContent204, db := db', notifs := [] }

/-- `PATCH /trips/{tripId}/confirm` (api.PatchTripsTripIDConfirm): 404 on
any trip-lookup error; set the confirmed flag; fetch the full roster and
spawn one participant-confirmation fan-out addressed to every roster
member, unfiltered by their own confirmed state. -/
def PatchTripsTripIDConfirm (db : DB) (f : Faults) (tripID : Nat) :
    HandlerResult :=
  match db.getTrip f tripID with
  | .error _ =>
    { response := .notFound404 "trip not found", db := db, notifs := [] }
  | .ok trip =>
    match db.updateTripConfirm f { isConfirmed := true, id := tripID } with
    | .error _ =>
      { response := .serverError500 "unable to confirm trip and send notifications"
        db := db, notifs := [] }
    | .ok db' =>
      match db'.getParticipants f tripID with
      | .error _ =>
        { response := .serverError500 "unable to get participants to invite"
          db := db', notifs := [] }
      | .ok participants =>
        let invites := participants.map (fun participant =>
          ({ tripID := trip.id
             participant := { participantId := participant.id
                              email := participant.email } } :
            Mailpit.InviteParticipantsToTrip))
        { response := .noContent204
          db := db'
          notifs := [.confirmTripToParticipants { trip := trip, invites := invites }] }

/-- `PATCH /participants/{participantId}/confirm`
(api.PatchParticipantsParticipantIDConfirm): 404 exactly on the no-rows
lookup error, 500 on any other lookup error; 400 if the participant is
already confirmed; otherwise persist the confirmed flag. -/
def PatchParticipantsParticipantIDConfirm (db : DB) (f : Faults)
    (participantID : Nat) : HandlerResult :=
  match db.getParticipant f participantID with
  | .error e =>
    if e == .noRows then
      { response := .notFound404 "participant not found", db := db, notifs := [] }
    else
      { response := .serverError500 "unable to retrieve trip's participants"
        db := db, notifs := [] }
  | .ok participant =>
    if participant.isConfirmed then
      { response := .badRequest400 "participant already confirmed"
        db := db, notifs := [] }
    else
      match db.confirmParticipant f { isConfirmed := true, id := participantID } with
      | .error _ =>
        { response := .serverError500 "unable to retrieve trip's participants"
          db := db, notifs := [] }
      | .ok db' =>
        { response := .noContent204, db := db', notifs := [] }

/-- spec.PostTripsTripIDActivitiesJSONRequestBody (decoded, validated). -/
structure CreateActivityRequest where
  title : String
  occursAt : Timestamp
deriving Repr, DecidableEq

/-- `POST /trips/{tripId}/activities` (api.PostTripsTripIDActivities):
404 on any trip-lookup error; 400 when the occurrence is strictly before
the trip's start or strictly after its end (boundary instants accepted);
otherwise persist the activity and return its fresh identifier. -/
def PostTripsTripIDActivities (db : DB) (f : Faults) (tripID : Nat)
    (body : CreateActivityRequest) : HandlerResult :=
  match db.getTrip f tripID with
  | .error _ =>
    { response := .notFound404 "trip not found", db := db, notifs := [] }
  | .ok trip =>
    if body.occursAt < trip.startsAt || body.occursAt > trip.endsAt then
      { response := .badRequest400 "invalid activity,  date of occurrence outside the travel periods"
        db := db, notifs := [] }
    else
      match db.createActivity f
          { tripId := tripID, title := body.title, occursAt := body.occursAt } with
      | .error _ =>
        { response := .serverError500 "unable to create activity, contact adm"
          db := db, notifs := [] }
      | .ok (activityId, db') =>
        { response := .created201 activityId, db := db', notifs := [] }

/-- `POST /trips/{tripId}/invites` (api.PostTripsTripIDInvites): 404 on
any trip-lookup error; reject when a roster member's trimmed email equals
the trimmed submitted email; otherwise insert one unconfirmed row,
re-fetch the roster, spawn a fan-out to the not-yet-confirmed subset, and
answer 201 with the identifier of the first roster member whose email
equals (untrimmed) the submitted one (zero value if none matches). -/
def PostTripsTripIDInvites (db : DB) (f : Faults) (tripID : Nat)
    (bodyEmail : String) : HandlerResult :=
  match db.getTrip f tripID with
  | .error _ =>
    { response := .notFound404 "trip not found", db := db, notifs := [] }
  | .ok trip =>
    match db.getParticipants f tripID with
    | .error _ =>
      { response := .serverError500 "unable to obtain participants and consists of whether the new participant sent already exists"
        db := db, notifs := [] }
    | .ok participants =>
      let participantsAlreadyExists :=
        filterParticipants participants (fun participant =>
          trimSpace participant.email == trimSpace bodyEmail)
      if participantsAlreadyExists.length > 0 then
        { response := .badRequest400 "new participant already exists"
          db := db, notifs := [] }
      else
        match db.inviteParticipantsToTrip f
            [{ tripId := trip.id, email := bodyEmail }] with
        | .error _ =>
          { response := .badRequest400 "unable to insert new participant"
            db := db, notifs := [] }
        | .ok (_, db1) =>
          match db1.getParticipants f tripID with
          | .error _ =>
            { response := .badRequest400 "new participant registered, but don't was possible recovery operation id"
              db := db1, notifs := [] }
          | .ok participants2 =>
            let participantsNoninvited :=
              filterParticipants participants2 (fun participant =>
                !participant.isConfirmed)
            let participantId :=
              match participants2.find? (fun p => p.email == bodyEmail) with
              | some p => p.id
              | none => 0
            let invitesToSend := participantsNoninvited.map (fun p =>
              ({ tripID := tripID
                 participant := { participantId := p.id, email := p.email } } :
                Mailpit.InviteParticipantsToTrip))
            { response := .created201 participantId
              db := db1
              notifs := [.confirmTripToParticipants
                { trip := trip, invites := invitesToSend }] }

end API

/-- The synthesized inner HTTP request of the redirect wrappers. -/
structure HttpRequest where
  method : String
  url : String
  headers : List (String × String)
deriving Repr, DecidableEq

/-- api.buildRedirectRequestUsingRequestsWithParametersInTheURL: builds a
new request with the mutating verb (`PATCH`), the base URL joined with the
inbound request's URI, and the inbound request's own header map. -/
def buildRedirectRequestUsingRequestsWithParametersInTheURL
    (headers : List (String × String)) (urlBase requestURI : String) :
    HttpRequest :=
  { method := "PATCH", url := urlBase ++ requestURI, headers := headers }

/-- The outcome of a redirect wrapper: the inner request it issued over
the network, and the handler result as seen by the original caller (whose
store state and notifications are those produced by the inner call, served
by the same process against the same store). -/
structure WrapperResult where
  issued : HttpRequest
  result : HandlerResult
deriving Repr, DecidableEq

namespace API

/-- `GET /trips/{tripId}/confirm` (api.GetTripsTripIDConfirm): issues the
built PATCH request against its own server (modelled by running the PATCH
handler on the same store) and relays: inner 400 and 404 are relayed with
their bodies; every other inner outcome is answered as 204. -/
def GetTripsTripIDConfirm (db : DB) (f : Faults)
    (headers : List (String × String)) (urlBase requestURI : String)
    (tripId : Nat) : WrapperResult :=
  let issued := buildRedirectRequestUsingRequestsWithParametersInTheURL
    headers urlBase requestURI
  let inner := API.PatchTripsTripIDConfirm db f tripId
  match inner.response with
  | .badRequest400 m =>
    { issued := issued
      result := { response := .badRequest400 m, db := inner.db, notifs := inner.notifs } }
  | .notFound404 m =>
    { issued := issued
      result := { response := .notFound404 m, db := inner.db, notifs := inner.notifs } }
  | _ =>
    { issued := issued
      result := { response := .noContent204, db := inner.db, notifs := inner.notifs } }

/-- `GET /participants/{participantId}/confirm`
(api.GetParticipantsParticipantIDConfirm): same wrapper pattern over the
participant-confirmation PATCH handler. -/
def GetParticipantsParticipantIDConfirm (db : DB) (f : Faults)
    (headers : List (String × String)) (urlBase requestURI : String)
    (participantId : Nat) : WrapperResult :=
  let issued := buildRedirectRequestUsingRequestsWithParametersInTheURL
    headers urlBase requestURI
  let inner := API.PatchParticipantsParticipantIDConfirm db f participantId
  match inner.response with
  | .badRequest400 m =>
    { issued := issued
      result := { response := .badRequest400 m, db := inner.db, notifs := inner.notifs } }
  | .notFound404 m =>
    { issued := issued
      result := { response := .notFound404 m, db := inner.db, notifs := inner.notifs } }
  | _ =>
    { issued := issued
      result := { response := .noContent204, db := inner.db, notifs := inner.notifs } }

end API

/-! ## Fault-free store evaluation lemmas -/

theorem getTripActivities_noFaults (db : DB) (tripId : Nat) :
    db.getTripActivities Faults.noFaults tripId
      = .ok (db.activities.filter (fun a => a.tripId == tripId)) := rfl

theorem getParticipants_noFaults (db : DB) (tripId : Nat) :
    db.getParticipants Faults.noFaults tripId
      = .ok (db.participants.filter (fun p => p.tripId == tripId)) := rfl

theorem updateTrip_noFaults (db : DB) (p : UpdateTripParams) :
    db.updateTrip Faults.noFaults p
      = .ok { db with
          trips := db.trips.map (fun t =>
            if t.id == p.id then
              { t with destination := p.destination, startsAt := p.startsAt,
                       endsAt := p.endsAt, isConfirmed := p.isConfirmed }
            else t) } := rfl

theorem updateTripConfirm_noFaults (db : DB) (p : UpdateTripConfirmParams) :
    db.updateTripConfirm Faults.noFaults p
      = .ok { db with
          trips := db.trips.map (fun t =>
            if t.id == p.id then { t with isConfirmed := p.isConfirmed } else t) } :=
  rfl

theorem confirmParticipant_noFaults (db : DB) (p : ConfirmParticipantParams) :
    db.confirmParticipant Faults.noFaults p
      = .ok { db with
          participants := db.participants.map (fun q =>
            if q.id == p.id then { q with isConfirmed := p.isConfirmed } else q) } :=
  rfl

theorem getTrip_noFaults (db : DB) (tripId : Nat) :
    db.getTrip Faults.noFaults tripId
      = (match db.trips.find? (fun t => t.id == tripId) with
         | some t => .ok t
         | none => .error .noRows) := rfl

theorem getParticipant_noFaults (db : DB) (participantId : Nat) :
    db.getParticipant Faults.noFaults participantId
      = (match db.participants.find? (fun p => p.id == participantId) with
         | some p => .ok p
         | none => .error .noRows) := rfl

/-! ## Concrete fixtures used by the witnesses and counterexamples -/

/-- A sample trip. -/
def exTrip : Trip :=
  { id := 1, destination := "Paris", startsAt := 100, endsAt := 200
    isConfirmed := false, ownerEmail := "owner@x.com" }

/-- A sample in-range activity of `exTrip`. -/
def exActIn : Activity :=
  { id := 2, tripId := 1, title := "hike", occursAt := 120 }

/-- A sample activity of `exTrip` that falls outside `[110, 250]`. -/
def exActOut : Activity :=
  { id := 3, tripId := 1, title := "tour", occursAt := 300 }

/-- A confirmed sample participant of `exTrip`. -/
def exPartConfirmed : Participant :=
  { id := 4, tripId := 1, email := "a@x.com", isConfirmed := true }

/-- A pending sample participant of `exTrip`. -/
def exPartPending : Participant :=
  { id := 5, tripId := 1, email := "b@x.com", isConfirmed := false }

/-- A sample store state. -/
def exDB : DB :=
  { trips := [exTrip]
    participants := [exPartConfirmed, exPartPending]
    activities := [exActIn, exActOut]
    links := []
    nextId := 10 }

/-- A sample `PUT /trips/{tripId}` body moving `exTrip` to `[110, 250]`. -/
def exPutBody : PutTripsTripIDRequestBody :=
  { destination := "Lyon", startsAt := 110, endsAt := 250 }

/-- Outcome of `PUT /trips/{tripId}` on an existing trip with valid
dates, split on whether the proposed window strands an activity. -/
theorem putTrip_outcomes
    (db : DB) (now : Timestamp) (tripID : Nat)
    (body : PutTripsTripIDRequestBody) (tripActual : Trip)
    (hTrip : db.getTrip Faults.noFaults tripID = .ok tripActual)
    (hStart : ¬ body.startsAt < now)
    (hEnd : ¬ body.endsAt < body.startsAt) :
    (filterActivities (db.activities.filter (fun a => a.tripId == tripID))
        (fun a => body.startsAt > a.occursAt || body.endsAt < a.occursAt) ≠ [] →
      API.PutTripsTripID db Faults.noFaults now tripID body =
        { response := .badRequest400
            ("changes invalid. There are activities occuring out of range the new period's trip. Activities out of range: "
              ++ String.intercalate ", "
                ((filterActivities (db.activities.filter (fun a => a.tripId == tripID))
                    (fun a => body.startsAt > a.occursAt || body.endsAt < a.occursAt)).map
                  (fun a => toString a.id)))
          db := db
          notifs := [] }) ∧
    (filterActivities (db.activities.filter (fun a => a.tripId == tripID))
        (fun a => body.startsAt > a.occursAt || body.endsAt < a.occursAt) = [] →
      API.PutTripsTripID db Faults.noFaults now tripID body =
        { response := .noContent204
          db := { db with
            trips := db.trips.map (fun t =>
              if t.id == tripActual.id then
                { t with destination := body.destination,
                         startsAt := body.startsAt, endsAt := body.endsAt,
                         isConfirmed := tripActual.isConfirmed }
              else t) }
          notifs := [] }) := by
  constructor
  · intro hOut
    simp only [API.PutTripsTripID, hTrip, getTripActivities_noFaults,
      if_neg hStart, if_neg hEnd]
    rw [if_pos (by simpa using List.length_pos.mpr hOut)]
  · intro hNone
    simp only [API.PutTripsTripID, hTrip, getTripActivities_noFaults,
      if_neg hStart, if_neg hEnd, hNone]
    simp [updateTrip_noFaults]

/-- C1: for every trip update on an existing trip with valid dates, if
any currently owned activity's occurrence timestamp is strictly before
the proposed new start or strictly after the proposed new end, the whole
update is answered with a 400 whose message enumerates the identifiers
of every such out-of-range activity and the store is untouched; if no
activity is out of range, the update commits. -/
theorem putTripsTripID_activity_range_guard
    (db : DB) (now : Timestamp) (tripID : Nat)
    (body : PutTripsTripIDRequestBody) (tripActual : Trip)
    (hTrip : db.getTrip Faults.noFaults tripID = .ok tripActual)
    (hStart : ¬ body.startsAt < now)
    (hEnd : ¬ body.endsAt < body.startsAt) :
    (filterActivities (db.activities.filter (fun a => a.tripId == tripID))
        (fun a => body.startsAt > a.occursAt || body.endsAt < a.occursAt) ≠ [] →
      API.PutTripsTripID db Faults.noFaults now tripID body =
        { response := .badRequest400
            ("changes invalid. There are activities occuring out of range the new period's trip. Activities out of range: "
              ++ String.intercalate ", "
                ((filterActivities (db.activities.filter (fun a => a.tripId == tripID))
                    (fun a => body.startsAt > a.occursAt || body.endsAt < a.occursAt)).map
                  (fun a => toString a.id)))
          db := db
          notifs := [] }) ∧
    (filterActivities (db.activities.filter (fun a => a.tripId == tripID))
        (fun a => body.startsAt > a.occursAt || body.endsAt < a.occursAt) = [] →
      API.PutTripsTripID db Faults.noFaults now tripID body =
        { response := .noContent204
          db := { db with
            trips := db.trips.map (fun t =>
              if t.id == tripActual.id then
                { t with destination := body.destination,
                         startsAt := body.startsAt, endsAt := body.endsAt,
                         isConfirmed := tripActual.isConfirmed }
              else t) }
          notifs := [] }) :=
  putTrip_outcomes db now tripID body tripActual hTrip hStart hEnd

/-- C1 witness: on the sample store, moving the trip window to
`[110, 250]` strands activity 3 (occurring at 300) and the update is
rejected naming it; the theorem applies at that input. -/
theorem putTripsTripID_activity_range_guard_witness :
    API.PutTripsTripID exDB Faults.noFaults 50 1 exPutBody =
      { response := .badRequest400
          ("changes invalid. There are activities occuring out of range the new period's trip. Activities out of range: "
            ++ String.intercalate ", "
              ((filterActivities (exDB.activities.filter (fun a => a.tripId == 1))
                  (fun a => exPutBody.startsAt > a.occursAt || exPutBody.endsAt < a.occursAt)).map
                (fun a => toString a.id)))
        db := exDB
        notifs := [] } :=
  (putTripsTripID_activity_range_guard exDB 50 1 exPutBody exTrip rfl
    (by decide) (by decide)).1 (by decide)

theorem createTrip_noFaults (db : DB) (body : CreateTripRequest) :
    db.createTrip Faults.noFaults body
      = .ok (db.nextId,
          { db with
            trips := db.trips ++
              [{ id := db.nextId
                 destination := body.destination
                 startsAt := body.startsAt
                 endsAt := body.endsAt
                 isConfirmed := false
                 ownerEmail := body.ownerEmail }],
            nextId := db.nextId + 1 }) := rfl

theorem createActivity_noFaults (db : DB) (p : CreateActivityParams) :
    db.createActivity Faults.noFaults p
      = .ok (db.nextId,
          { db with
            activities := db.activities ++
              [{ id := db.nextId
                 tripId := p.tripId
                 title := p.title
                 occursAt := p.occursAt }],
            nextId := db.nextId + 1 }) := rfl

/-- A sample valid `POST /trips` body (relative to `now = 50`). -/
def exCreateBody : CreateTripRequest :=
  { destination := "Rome", ownerEmail := "owner@x.com"
    startsAt := 60, endsAt := 90 }

/-- A sample `PUT /trips/{tripId}` body whose start date lies in the past
(relative to `now = 50`). -/
def exPutBodyBad : PutTripsTripIDRequestBody :=
  { destination := "Lyon", startsAt := 40, endsAt := 250 }

/-- C2: on trip creation and trip update, a start date before `now` or an
end date before the start date is answered with a 400 and the store is
untouched; when the dates pass, the created trip is stored with exactly
those dates (so `now ≤ start ≤ end` holds for it); an update on an
absent trip is answered 404 with the store untouched, and any update
that answers 204 stored the body's dates after having passed the same
checks. -/
theorem trip_date_validation
    (db : DB) (now : Timestamp) (body : CreateTripRequest)
    (tripID : Nat) (putBody : PutTripsTripIDRequestBody) (tripActual : Trip) :
    (body.startsAt < now ∨ body.endsAt < body.startsAt →
      (API.PostTrips db Faults.noFaults now body).db = db ∧
      ∃ m, (API.PostTrips db Faults.noFaults now body).response = .badRequest400 m) ∧
    (¬ body.startsAt < now → ¬ body.endsAt < body.startsAt →
      API.PostTrips db Faults.noFaults now body =
        { response := .created201 db.nextId
          db := { db with
            trips := db.trips ++
              [{ id := db.nextId
                 destination := body.destination
                 startsAt := body.startsAt
                 endsAt := body.endsAt
                 isConfirmed := false
                 ownerEmail := body.ownerEmail }],
            nextId := db.nextId + 1 }
          notifs := [.confirmTripToOwner db.nextId] } ∧
      now ≤ body.startsAt ∧ body.startsAt ≤ body.endsAt) ∧
    (∀ e, db.getTrip Faults.noFaults tripID = .error e →
      API.PutTripsTripID db Faults.noFaults now tripID putBody =
        { response := .notFound404 "trip not found", db := db, notifs := [] }) ∧
    (db.getTrip Faults.noFaults tripID = .ok tripActual →
      putBody.startsAt < now ∨ putBody.endsAt < putBody.startsAt →
      (API.PutTripsTripID db Faults.noFaults now tripID putBody).db = db ∧
      ∃ m, (API.PutTripsTripID db Faults.noFaults now tripID putBody).response
        = .badRequest400 m) ∧
    (db.getTrip Faults.noFaults tripID = .ok tripActual →
      (API.PutTripsTripID db Faults.noFaults now tripID putBody).response
        = .noContent204 →
      now ≤ putBody.startsAt ∧ putBody.startsAt ≤ putBody.endsAt ∧
      (API.PutTripsTripID db Faults.noFaults now tripID putBody).db.trips
        = db.trips.map (fun t =>
            if t.id == tripActual.id then
              { t with destination := putBody.destination,
                       startsAt := putBody.startsAt, endsAt := putBody.endsAt,
                       isConfirmed := tripActual.isConfirmed }
            else t)) := by
  refine ⟨?_, ?_, ?_, ?_, ?_⟩
  · intro hBad
    by_cases h1 : body.startsAt < now
    · have e : API.PostTrips db Faults.noFaults now body =
          { response := .badRequest400 "the travel period is invalid, it is not possible to change the start date to before today/now"
            db := db, notifs := [] } := by
        simp [API.PostTrips, if_pos h1]
      rw [e]
      exact ⟨rfl, _, rfl⟩
    · have h2 : body.endsAt < body.startsAt := hBad.resolve_left h1
      have e : API.PostTrips db Faults.noFaults now body =
          { response := .badRequest400 "the travel period is invalid, end date must be equal to or greater than the start date"
            db := db, notifs := [] } := by
        simp [API.PostTrips, if_neg h1, if_pos h2]
      rw [e]
      exact ⟨rfl, _, rfl⟩
  · intro h1 h2
    refine ⟨?_, le_of_not_lt h1, le_of_not_lt h2⟩
    simp [API.PostTrips, if_neg h1, if_neg h2, createTrip_noFaults]
  · intro e he
    simp only [API.PutTripsTripID, he]
  · intro hTrip hBad
    by_cases h1 : putBody.startsAt < now
    · have e : API.PutTripsTripID db Faults.noFaults now tripID putBody =
          { response := .badRequest400 "the travel period is invalid, it is not possible to change the start date to before today/now"
            db := db, notifs := [] } := by
        simp [API.PutTripsTripID, hTrip, getTripActivities_noFaults, if_pos h1]
      rw [e]
      exact ⟨rfl, _, rfl⟩
    · have h2 : putBody.endsAt < putBody.startsAt := hBad.resolve_left h1
      have e : API.PutTripsTripID db Faults.noFaults now tripID putBody =
          { response := .badRequest400 "the travel period is invalid, end date must be equal to or greater than the start date"
            db := db, notifs := [] } := by
        simp [API.PutTripsTripID, hTrip, getTripActivities_noFaults,
          if_neg h1, if_pos h2]
      rw [e]
      exact ⟨rfl, _, rfl⟩
  · intro hTrip h204
    by_cases h1 : putBody.startsAt < now
    · have e : API.PutTripsTripID db Faults.noFaults now tripID putBody =
          { response := .badRequest400 "the travel period is invalid, it is not possible to change the start date to before today/now"
            db := db, notifs := [] } := by
        simp [API.PutTripsTripID, hTrip, getTripActivities_noFaults, if_pos h1]
      rw [e] at h204
      exact absurd h204 (by simp)
    by_cases h2 : putBody.endsAt < putBody.startsAt
    · have e : API.PutTripsTripID db Faults.noFaults now tripID putBody =
          { response := .badRequest400 "the travel period is invalid, end date must be equal to or greater than the start date"
            db := db, notifs := [] } := by
        simp [API.PutTripsTripID, hTrip, getTripActivities_noFaults,
          if_neg h1, if_pos h2]
      rw [e] at h204
      exact absurd h204 (by simp)
    by_cases hOut : filterActivities (db.activities.filter (fun a => a.tripId == tripID))
        (fun a => putBody.startsAt > a.occursAt || putBody.endsAt < a.occursAt) = []
    · have e := (putTrip_outcomes db now tripID putBody
        tripActual hTrip h1 h2).2 hOut
      rw [e]
      exact ⟨le_of_not_lt h1, le_of_not_lt h2, rfl⟩
    · have e := (putTrip_outcomes db now tripID putBody
        tripActual hTrip h1 h2).1 hOut
      rw [e] at h204
      exact absurd h204 (by simp)

/-- C2 witness: a `PUT` body with a start date in the past (40 against
`now = 50`) on the sample store is rejected with a 400 and the store is
untouched; the theorem applies at that input. -/
theorem trip_date_validation_witness :
    (API.PutTripsTripID exDB Faults.noFaults 50 1 exPutBodyBad).db = exDB ∧
    ∃ m, (API.PutTripsTripID exDB Faults.noFaults 50 1 exPutBodyBad).response
      = .badRequest400 m :=
  (trip_date_validation exDB 50 exCreateBody 1 exPutBodyBad exTrip).2.2.2.1 rfl
    (Or.inl (by decide))

theorem inviteOne_noFaults (db : DB) (p : InviteParticipantsToTripParams) :
    db.inviteParticipantsToTrip Faults.noFaults [p]
      = .ok (1, { db with
          participants := db.participants ++
            [{ id := db.nextId
               tripId := p.tripId
               email := p.email
               isConfirmed := false }]
          nextId := db.nextId + 1 }) := rfl

/-- C3: for every invite request on an existing trip, the request is
answered with the duplicate-rejection 400 with no participant row
inserted exactly when the roster already contains a participant whose
whitespace-trimmed email equals the whitespace-trimmed submitted email
(case as given). -/
theorem invites_duplicate_rejected
    (db : DB) (tripID : Nat) (email : String) (trip : Trip)
    (hTrip : db.getTrip Faults.noFaults tripID = .ok trip) :
    (∃ p ∈ db.participants, p.tripId = tripID ∧
        trimSpace p.email = trimSpace email) ↔
    API.PostTripsTripIDInvites db Faults.noFaults tripID email =
      { response := .badRequest400 "new participant already exists"
        db := db, notifs := [] } := by
  constructor
  · rintro ⟨p, hMem, hOwn, hDup⟩
    have hp : p ∈ filterParticipants
        (db.participants.filter (fun q => q.tripId == tripID))
        (fun q => trimSpace q.email == trimSpace email) := by
      unfold filterParticipants
      refine List.mem_filter.mpr ⟨List.mem_filter.mpr ⟨hMem, ?_⟩, ?_⟩
      · simp [hOwn]
      · simp [hDup]
    have hlen : 0 < (filterParticipants
        (db.participants.filter (fun q => q.tripId == tripID))
        (fun q => trimSpace q.email == trimSpace email)).length :=
      List.length_pos.mpr (List.ne_nil_of_mem hp)
    simp only [API.PostTripsTripIDInvites, hTrip, getParticipants_noFaults]
    rw [if_pos hlen]
  · intro hres
    by_cases hOut : filterParticipants
        (db.participants.filter (fun q => q.tripId == tripID))
        (fun q => trimSpace q.email == trimSpace email) = []
    · exfalso
      have hlen : ¬ 0 < (filterParticipants
          (db.participants.filter (fun q => q.tripId == tripID))
          (fun q => trimSpace q.email == trimSpace email)).length := by
        rw [hOut]
        simp
      simp only [API.PostTripsTripIDInvites, hTrip, getParticipants_noFaults]
        at hres
      rw [if_neg hlen] at hres
      simp only [inviteOne_noFaults, getParticipants_noFaults] at hres
      have hr := congrArg HandlerResult.response hres
      simp at hr
    · obtain ⟨p, hp⟩ := List.exists_mem_of_ne_nil _ hOut
      unfold filterParticipants at hp
      have h1 := List.mem_filter.mp hp
      have h2 := List.mem_filter.mp h1.1
      refine ⟨p, h2.1, ?_, ?_⟩
      · simpa using h2.2
      · simpa using h1.2

/-- C3 witness: inviting `" b@x.com "` while `"b@x.com"` is already on
the roster of trip 1 is rejected (trim-compared) with the store
untouched; the theorem applies at that input. -/
theorem invites_duplicate_rejected_witness :
    API.PostTripsTripIDInvites exDB Faults.noFaults 1 " b@x.com " =
      { response := .badRequest400 "new participant already exists"
        db := exDB, notifs := [] } :=
  (invites_duplicate_rejected exDB 1 " b@x.com " exTrip rfl).mp
    ⟨exPartPending, by decide, rfl, by decide⟩

/-- C4: on participant confirmation, an absent participant is answered
404; an already-confirmed participant is answered 400 with the store
untouched and no notification; a pending participant has its confirmed
flag set to true exactly once, with no notification dispatched. -/
theorem participant_confirm_behaviour (db : DB) (pid : Nat) :
    (db.participants.find? (fun q => q.id == pid) = none →
      API.PatchParticipantsParticipantIDConfirm db Faults.noFaults pid =
        { response := .notFound404 "participant not found"
          db := db, notifs := [] }) ∧
    (∀ p, db.participants.find? (fun q => q.id == pid) = some p →
      (p.isConfirmed = true →
        API.PatchParticipantsParticipantIDConfirm db Faults.noFaults pid =
          { response := .badRequest400 "participant already confirmed"
            db := db, notifs := [] }) ∧
      (p.isConfirmed = false →
        API.PatchParticipantsParticipantIDConfirm db Faults.noFaults pid =
          { response := .noContent204
            db := { db with participants := db.participants.map (fun q =>
              if q.id == pid then { q with isConfirmed := true } else q) }
            notifs := [] })) := by
  refine ⟨?_, ?_⟩
  · intro hNone
    simp [API.PatchParticipantsParticipantIDConfirm, getParticipant_noFaults,
      hNone]
  · intro p hSome
    refine ⟨?_, ?_⟩
    · intro hConf
      simp [API.PatchParticipantsParticipantIDConfirm, getParticipant_noFaults,
        hSome, hConf]
    · intro hPend
      simp [API.PatchParticipantsParticipantIDConfirm, getParticipant_noFaults,
        hSome, hPend, confirmParticipant_noFaults]

/-- C4 witness: confirming pending participant 5 on the sample store
answers 204 and flips exactly its flag; the theorem applies at that
input. -/
theorem participant_confirm_behaviour_witness :
    API.PatchParticipantsParticipantIDConfirm exDB Faults.noFaults 5 =
      { response := .noContent204
        db := { exDB with participants := exDB.participants.map (fun q =>
          if q.id == 5 then { q with isConfirmed := true } else q) }
        notifs := [] } :=
  ((participant_confirm_behaviour exDB 5).2 exPartPending rfl).2 rfl

/-- C5: confirming an existing trip answers 204, sets the trip's
confirmed flag, and dispatches one asynchronous fan-out addressed to
every participant currently on the trip's roster — unfiltered by the
participants' own confirmed state — carrying each participant's
identifier (from which their individual confirmation link is built). -/
theorem patchTripConfirm_notifies_all_roster
    (db : DB) (tripID : Nat) (trip : Trip)
    (hTrip : db.getTrip Faults.noFaults tripID = .ok trip) :
    API.PatchTripsTripIDConfirm db Faults.noFaults tripID =
      { response := .noContent204
        db := { db with trips := db.trips.map (fun t =>
          if t.id == tripID then { t with isConfirmed := true } else t) }
        notifs := [.confirmTripToParticipants
          { trip := trip
            invites := (db.participants.filter (fun p => p.tripId == tripID)).map
              (fun p => { tripID := trip.id
                          participant := { participantId := p.id
                                           email := p.email } }) }] } := by
  simp [API.PatchTripsTripIDConfirm, hTrip, updateTripConfirm_noFaults,
    getParticipants_noFaults]

/-- C5 witness: confirming trip 1 on the sample store notifies both the
already-confirmed participant 4 and the pending participant 5; the
theorem applies at that input. -/
theorem patchTripConfirm_notifies_all_roster_witness :
    API.PatchTripsTripIDConfirm exDB Faults.noFaults 1 =
      { response := .noContent204
        db := { exDB with trips := exDB.trips.map (fun t =>
          if t.id == 1 then { t with isConfirmed := true } else t) }
        notifs := [.confirmTripToParticipants
          { trip := exTrip
            invites := (exDB.participants.filter (fun p => p.tripId == 1)).map
              (fun p => { tripID := exTrip.id
                          participant := { participantId := p.id
                                           email := p.email } }) }] } :=
  patchTripConfirm_notifies_all_roster exDB 1 exTrip rfl

/-- C6: creating an activity answers 404 when the trip is absent; is
rejected with a 400 (store untouched) when the occurrence timestamp is
strictly before the trip's start or strictly after its end; and with the
timestamp inside the window — boundary instants included — persists the
activity and answers 201 with its fresh identifier. -/
theorem postActivity_range (db : DB) (tripID : Nat)
    (body : API.CreateActivityRequest) :
    (db.trips.find? (fun t => t.id == tripID) = none →
      API.PostTripsTripIDActivities db Faults.noFaults tripID body =
        { response := .notFound404 "trip not found", db := db, notifs := [] }) ∧
    (∀ trip, db.trips.find? (fun t => t.id == tripID) = some trip →
      (body.occursAt < trip.startsAt ∨ body.occursAt > trip.endsAt →
        API.PostTripsTripIDActivities db Faults.noFaults tripID body =
          { response := .badRequest400 "invalid activity,  date of occurrence outside the travel periods"
            db := db, notifs := [] }) ∧
      (trip.startsAt ≤ body.occursAt → body.occursAt ≤ trip.endsAt →
        API.PostTripsTripIDActivities db Faults.noFaults tripID body =
          { response := .created201 db.nextId
            db := { db with
              activities := db.activities ++
                [{ id := db.nextId
                   tripId := tripID
                   title := body.title
                   occursAt := body.occursAt }]
              nextId := db.nextId + 1 }
            notifs := [] })) := by
  refine ⟨?_, ?_⟩
  · intro hNone
    simp [API.PostTripsTripIDActivities, getTrip_noFaults, hNone]
  · intro trip hSome
    refine ⟨?_, ?_⟩
    · intro hOut
      rcases hOut with h1 | h2
      · simp [API.PostTripsTripIDActivities, getTrip_noFaults, hSome, h1]
      · simp [API.PostTripsTripIDActivities, getTrip_noFaults, hSome, h2]
    · intro hGe hLe
      have h1 : ¬ body.occursAt < trip.startsAt := not_lt.mpr hGe
      have h2 : ¬ body.occursAt > trip.endsAt := not_lt.mpr hLe
      simp [API.PostTripsTripIDActivities, getTrip_noFaults, hSome, h1, h2,
        createActivity_noFaults]

/-- C6 witness: an activity occurring exactly at trip 1's start instant
(100) is accepted and stored; the theorem applies at that input. -/
theorem postActivity_range_witness :
    API.PostTripsTripIDActivities exDB Faults.noFaults 1
        { title := "boundary", occursAt := 100 } =
      { response := .created201 exDB.nextId
        db := { exDB with
          activities := exDB.activities ++
            [{ id := exDB.nextId
               tripId := 1
               title := "boundary"
               occursAt := 100 }]
          nextId := exDB.nextId + 1 }
        notifs := [] } :=
  ((postActivity_range exDB 1 { title := "boundary", occursAt := 100 }).2
    exTrip rfl).2 (by decide) (by decide)


/-- The participant row a successful invite of `email` inserts. -/
def newInvitee (db : DB) (trip : Trip) (email : String) : Participant :=
  { id := db.nextId, tripId := trip.id, email := email, isConfirmed := false }

/-- C7: a successful invite inserts exactly one unconfirmed row,
re-fetches the roster, spawns one asynchronous fan-out addressed to the
not-yet-confirmed subset of the re-fetched roster (previously invited
pending participants included), and answers 201 with the identifier of
the participant just inserted. -/
theorem invites_success_fanout
    (db : DB) (tripID : Nat) (email : String) (trip : Trip)
    (hTrip : db.getTrip Faults.noFaults tripID = .ok trip)
    (hNoDup : ∀ p ∈ db.participants.filter (fun q => q.tripId == tripID),
      trimSpace p.email ≠ trimSpace email) :
    API.PostTripsTripIDInvites db Faults.noFaults tripID email =
      { response := .created201 db.nextId
        db := { db with
          participants := db.participants ++ [newInvitee db trip email]
          nextId := db.nextId + 1 }
        notifs := [.confirmTripToParticipants
          { trip := trip
            invites := (filterParticipants
                ((db.participants ++ [newInvitee db trip email]).filter
                  (fun q => q.tripId == tripID))
                (fun q => !q.isConfirmed)).map
              (fun p => { tripID := tripID
                          participant := { participantId := p.id
                                           email := p.email } }) }] } := by
  have hfind : db.trips.find? (fun t => t.id == tripID) = some trip := by
    rw [getTrip_noFaults] at hTrip
    rcases h : db.trips.find? (fun t => t.id == tripID) with _ | a
    · rw [h] at hTrip; simp at hTrip
    · rw [h] at hTrip
      simp at hTrip
      rw [h, hTrip]
  have htid : trip.id = tripID := by
    have h := List.find?_some hfind
    simpa using h
  have hfilterEmpty : filterParticipants
      (db.participants.filter (fun q => q.tripId == tripID))
      (fun q => trimSpace q.email == trimSpace email) = [] := by
    unfold filterParticipants
    rw [List.filter_eq_nil_iff]
    intro a ha
    simpa using hNoDup a ha
  have hlen : ¬ 0 < (filterParticipants
      (db.participants.filter (fun q => q.tripId == tripID))
      (fun q => trimSpace q.email == trimSpace email)).length := by
    rw [hfilterEmpty]
    simp
  have hfindNew : ((db.participants ++ [newInvitee db trip email]).filter
        (fun q => q.tripId == tripID)).find? (fun p => p.email == email)
      = some (newInvitee db trip email) := by
    rw [List.filter_append, List.find?_append]
    have h1 : (db.participants.filter (fun q => q.tripId == tripID)).find?
        (fun p => p.email == email) = none := by
      rw [List.find?_eq_none]
      intro a ha hEq
      have he : a.email = email := by simpa using hEq
      exact hNoDup a ha (by rw [he])
    rw [h1]
    simp [newInvitee, htid]
  simp only [API.PostTripsTripIDInvites, hTrip, getParticipants_noFaults]
  rw [if_neg hlen]
  simp only [inviteOne_noFaults, newInvitee, getParticipants_noFaults]
  simp only [newInvitee] at hfindNew
  simp only [hfindNew]

/-- C7 witness: inviting `"c@x.com"` to trip 1 of the sample store
answers 201 with the fresh identifier 10 and re-notifies the pending
participant 5 along with the newcomer; the theorem applies at that
input. -/
theorem invites_success_fanout_witness :
    API.PostTripsTripIDInvites exDB Faults.noFaults 1 "c@x.com" =
      { response := .created201 exDB.nextId
        db := { exDB with
          participants := exDB.participants ++ [newInvitee exDB exTrip "c@x.com"]
          nextId := exDB.nextId + 1 }
        notifs := [.confirmTripToParticipants
          { trip := exTrip
            invites := (filterParticipants
                ((exDB.participants ++ [newInvitee exDB exTrip "c@x.com"]).filter
                  (fun q => q.tripId == 1))
                (fun q => !q.isConfirmed)).map
              (fun p => { tripID := 1
                          participant := { participantId := p.id
                                           email := p.email } }) }] } :=
  invites_success_fanout exDB 1 "c@x.com" exTrip rfl (by decide)

/-- A fault set where only the store's `UpdateTripConfirm` fails. -/
def exFaultsUTC : Faults := { Faults.noFaults with updateTripConfirm := true }

/-- A fault set where only the store's `GetTrip` fails (with a
non-absence error). -/
def exFaultsGT : Faults := { Faults.noFaults with getTrip := true }

/-- A fault set where only the store's `GetParticipant` fails (with a
non-absence error). -/
def exFaultsGP : Faults := { Faults.noFaults with getParticipant := true }

/-- C8 (amended): the confirmation GET wrappers mutate nothing
themselves — their resulting store state and notifications are exactly
those of the PATCH call they re-issue against the same resource path
with the mutating verb and the inbound request's own headers — and they
relay the inner call's 400 and 404 responses with their bodies, while
any other inner outcome (an inner 500 included) is answered as 204. -/
theorem getConfirm_wrappers_delegate
    (db : DB) (f : Faults) (headers : List (String × String))
    (urlBase requestURI : String) (tripId pid : Nat) :
    API.GetTripsTripIDConfirm db f headers urlBase requestURI tripId =
      { issued := { method := "PATCH"
                    url := urlBase ++ requestURI
                    headers := headers }
        result :=
          { response :=
              (match (API.PatchTripsTripIDConfirm db f tripId).response with
               | .badRequest400 m => .badRequest400 m
               | .notFound404 m => .notFound404 m
               | _ => .noContent204)
            db := (API.PatchTripsTripIDConfirm db f tripId).db
            notifs := (API.PatchTripsTripIDConfirm db f tripId).notifs } } ∧
    API.GetParticipantsParticipantIDConfirm db f headers urlBase requestURI pid =
      { issued := { method := "PATCH"
                    url := urlBase ++ requestURI
                    headers := headers }
        result :=
          { response :=
              (match (API.PatchParticipantsParticipantIDConfirm db f pid).response with
               | .badRequest400 m => .badRequest400 m
               | .notFound404 m => .notFound404 m
               | _ => .noContent204)
            db := (API.PatchParticipantsParticipantIDConfirm db f pid).db
            notifs := (API.PatchParticipantsParticipantIDConfirm db f pid).notifs } } := by
  constructor
  · simp only [API.GetTripsTripIDConfirm,
      buildRedirectRequestUsingRequestsWithParametersInTheURL]
    cases h : (API.PatchTripsTripIDConfirm db f tripId).response <;> simp [h]
  · simp only [API.GetParticipantsParticipantIDConfirm,
      buildRedirectRequestUsingRequestsWithParametersInTheURL]
    cases h : (API.PatchParticipantsParticipantIDConfirm db f pid).response <;>
      simp [h]

/-- C8 counterexample: with trip 1 present and the store's confirm-write
failing, the inner PATCH answers 500, yet the GET wrapper answers 204 to
the original caller — the inner call's status is not relayed. -/
theorem getTripConfirm_does_not_relay_500 :
    (API.PatchTripsTripIDConfirm exDB exFaultsUTC 1).response
      = .serverError500 "unable to confirm trip and send notifications" ∧
    (API.GetTripsTripIDConfirm exDB exFaultsUTC []
        "http://localhost:8080" "/trips/1/confirm" 1).result.response
      = .noContent204 ∧
    (API.GetTripsTripIDConfirm exDB exFaultsUTC []
        "http://localhost:8080" "/trips/1/confirm" 1).result.response
      ≠ (API.PatchTripsTripIDConfirm exDB exFaultsUTC 1).response :=
  ⟨rfl, rfl, by decide⟩

/-- C9 (amended): participant confirmation answers 404 exactly on the
no-rows (absence) lookup outcome and a generic 500 on any other lookup
failure; trip confirmation, however, answers 404 "trip not found" on ANY
trip-lookup failure, absence or not — its 500s arise only from the
subsequent confirm-write or roster fetch. -/
theorem confirm_lookup_error_mapping (db : DB) (pid tid : Nat) :
    (db.getParticipant Faults.noFaults pid = .error .noRows →
      (API.PatchParticipantsParticipantIDConfirm db Faults.noFaults pid).response
        = .notFound404 "participant not found") ∧
    ((API.PatchParticipantsParticipantIDConfirm db exFaultsGP pid).response
      = .serverError500 "unable to retrieve trip's participants") ∧
    (db.getTrip Faults.noFaults tid = .error .noRows →
      (API.PatchTripsTripIDConfirm db Faults.noFaults tid).response
        = .notFound404 "trip not found") ∧
    ((API.PatchTripsTripIDConfirm db exFaultsGT tid).response
      = .notFound404 "trip not found") := by
  refine ⟨?_, rfl, ?_, rfl⟩
  · intro h
    simp [API.PatchParticipantsParticipantIDConfirm, h]
  · intro h
    simp [API.PatchTripsTripIDConfirm, h]

/-- C9 witness: participant 99 is absent from the sample store and its
confirmation answers 404; the theorem applies at that input. -/
theorem confirm_lookup_error_mapping_witness :
    (API.PatchParticipantsParticipantIDConfirm exDB Faults.noFaults 99).response
      = .notFound404 "participant not found" :=
  (confirm_lookup_error_mapping exDB 99 99).1 rfl

/-- C9 counterexample: trip 1 exists, its lookup fails with a
non-absence store error, and the handler answers 404 — not the 500 the
claim demands for a non-absence lookup failure. -/
theorem patchTripConfirm_lookup_failure_counterexample :
    exDB.getTrip Faults.noFaults 1 = .ok exTrip ∧
    exDB.getTrip exFaultsGT 1 = .error .other ∧
    (API.PatchTripsTripIDConfirm exDB exFaultsGT 1).response
      = .notFound404 "trip not found" ∧
    (API.PatchTripsTripIDConfirm exDB exFaultsGT 1).response
      ≠ .serverError500 "unable to confirm trip and send notifications" :=
  ⟨rfl, rfl, rfl, by decide⟩

theorem getTrip_ok_find (db : DB) (tripId : Nat) (trip : Trip)
    (h : db.getTrip Faults.noFaults tripId = .ok trip) :
    db.trips.find? (fun t => t.id == tripId) = some trip := by
  rw [getTrip_noFaults] at h
  rcases hf : db.trips.find? (fun t => t.id == tripId) with _ | a
  · rw [hf] at h; simp at h
  · rw [hf] at h
    simp at h
    rw [hf, h]

/-- A sample `PUT /trips/{tripId}` body whose window `[100, 400]` covers
both sample activities. -/
def exPutBodyWide : PutTripsTripIDRequestBody :=
  { destination := "Berlin", startsAt := 100, endsAt := 400 }

/-- C10: a successful trip update answers 204 and re-fetching the trip
yields a row whose destination and dates come from the request body
while the identifier, the confirmed flag and the owner email are those
of the previously stored trip — the update can neither confirm nor
un-confirm a trip. -/
theorem putTrip_preserves_id_and_confirmed
    (db : DB) (now : Timestamp) (tripID : Nat)
    (body : PutTripsTripIDRequestBody) (tripActual : Trip)
    (hTrip : db.getTrip Faults.noFaults tripID = .ok tripActual)
    (hStart : ¬ body.startsAt < now)
    (hEnd : ¬ body.endsAt < body.startsAt)
    (hNoOut : filterActivities (db.activities.filter (fun a => a.tripId == tripID))
      (fun a => body.startsAt > a.occursAt || body.endsAt < a.occursAt) = []) :
    (API.PutTripsTripID db Faults.noFaults now tripID body).response
      = .noContent204 ∧
    (API.PutTripsTripID db Faults.noFaults now tripID body).db.getTrip
        Faults.noFaults tripID
      = .ok { tripActual with
              destination := body.destination
              startsAt := body.startsAt
              endsAt := body.endsAt } := by
  have e := (putTrip_outcomes db now tripID body tripActual hTrip hStart hEnd).2 hNoOut
  rw [e]
  refine ⟨rfl, ?_⟩
  have hfind := getTrip_ok_find db tripID tripActual hTrip
  have hpred : ((fun t : Trip => t.id == tripID) ∘ (fun t : Trip =>
      if t.id == tripActual.id then
        { t with destination := body.destination, startsAt := body.startsAt,
                 endsAt := body.endsAt, isConfirmed := tripActual.isConfirmed }
      else t)) = (fun t : Trip => t.id == tripID) := by
    funext t
    by_cases hc : (t.id == tripActual.id) = true
    · simp only [Function.comp_apply, if_pos hc]
    · simp only [Function.comp_apply, if_neg hc]
  rw [getTrip_noFaults]
  simp only [List.find?_map, hpred, hfind, Option.map_some']
  simp

/-- C10 witness: widening trip 1's window to `[100, 400]` succeeds on
the sample store and the re-fetched trip keeps identifier 1 and its
unconfirmed state while taking destination and dates from the body; the
theorem applies at that input. -/
theorem putTrip_preserves_id_and_confirmed_witness :
    (API.PutTripsTripID exDB Faults.noFaults 50 1 exPutBodyWide).response
      = .noContent204 ∧
    (API.PutTripsTripID exDB Faults.noFaults 50 1 exPutBodyWide).db.getTrip
        Faults.noFaults 1
      = .ok { exTrip with
              destination := "Berlin"
              startsAt := 100
              endsAt := 400 } :=
  putTrip_preserves_id_and_confirmed exDB 50 1 exPutBodyWide exTrip rfl
    (by decide) (by decide) (by decide)
